import Mathlib

/-!
Verification development for the SoundMaker audio-source supervisor.

Shallow embedding of the Python sources:
  * `stream_player.py`  — subprocess supervision (`StreamPlayer`)
  * `audio_controller.py` — source state machine (`AudioController`)
  * `airplay_manager.py` — event channel reader (`check_event`)
  * `player.py` — status publication (`write_state_file`) and the
    supervisory main loop (`main_iter`)
  * `led_controller.py` — the status-file reader (`read_state`)

Environment interaction (subprocess launches, the OS pipe, process death)
is modelled by explicit oracle values (`StartOutcome`, `PollOutcome`,
`Step.procDies`); everything else is translated directly from the code.
-/

/-- `AudioState` enum from `audio_controller.py`. -/
inductive AudioState where
  | STREAMING
  | AIRPLAY
  | IDLE
  | TRANSITIONING
deriving DecidableEq, Repr

/-- The `.value` string of each `AudioState` member. -/
def AudioState.value : AudioState → String
  | .STREAMING => "streaming"
  | .AIRPLAY => "airplay"
  | .IDLE => "idle"
  | .TRANSITIONING => "transitioning"

/-- A playback OS process: its pid and whether it is still running
(`poll() is None` in the Python code corresponds to `alive = true`). -/
structure Proc where
  pid : Nat
  alive : Bool
deriving DecidableEq, Repr

/-- Observable process-management side effects (spawning a subprocess,
terminating one). Used to state that an operation starts or stops nothing. -/
inductive Eff where
  | spawn (pid : Nat)
  | terminate (pid : Nat)
deriving DecidableEq, Repr

/-- `StreamPlayer.__init__` state from `stream_player.py`. -/
structure StreamPlayer where
  stream_url : String
  volume : Nat
  process : Option Proc
  restart_count : Nat
  max_restart_attempts : Nat
  restart_delay : Nat
  _is_playing : Bool
deriving DecidableEq, Repr

/-- `StreamPlayer.__init__(stream_url, volume)`. -/
def StreamPlayer.make (url : String) (vol : Nat) : StreamPlayer :=
  { stream_url := url, volume := vol, process := none, restart_count := 0,
    max_restart_attempts := 10, restart_delay := 3, _is_playing := false }

/-- Oracle describing how one `StreamPlayer.start` attempt unfolds in the
environment: mpv missing, successful launch of a given process, the process
exiting within the 1 s grace window, or the exception branches of `start`. -/
inductive StartOutcome where
  | mpvMissing
  | success (p : Proc)
  | immediateExit (pid : Nat)
  | fileNotFound
  | permissionError
  | otherError
deriving DecidableEq, Repr

/-- `StreamPlayer.start` (`stream_player.py` lines 52-117): returns the
Python return value, the updated object, and the spawn effects. The
`success` case reaches `self._is_playing = True`; `immediateExit` and the
generic-exception case clear `self.process`; `FileNotFoundError` and
`PermissionError` are raised by `Popen` itself, so `self.process` keeps its
previous value there. -/
def StreamPlayer.start (sp : StreamPlayer) : StartOutcome → Bool × StreamPlayer × List Eff
  | .mpvMissing => (false, sp, [])
  | .success p => (true, { sp with process := some p, _is_playing := true }, [Eff.spawn p.pid])
  | .immediateExit pid => (false, { sp with process := none }, [Eff.spawn pid])
  | .fileNotFound => (false, sp, [])
  | .permissionError => (false, sp, [])
  | .otherError => (false, { sp with process := none }, [])

/-- `StreamPlayer.stop` (`stream_player.py` lines 119-134): if a process
handle is present, terminate it (graceful-then-forced, always confirmed)
and clear `self.process` and `self._is_playing`; otherwise do nothing. -/
def StreamPlayer.stop (sp : StreamPlayer) : StreamPlayer × List Eff :=
  match sp.process with
  | none => (sp, [])
  | some p => ({ sp with process := none, _is_playing := false }, [Eff.terminate p.pid])

/-- `StreamPlayer.is_playing` (`stream_player.py` lines 136-144). Mutates
`self._is_playing` when the process is found dead, so the updated object is
returned alongside the result. -/
def StreamPlayer.is_playing (sp : StreamPlayer) : Bool × StreamPlayer :=
  match sp.process with
  | none => (false, sp)
  | some p =>
    if p.alive = false then (false, { sp with _is_playing := false })
    else (sp._is_playing, sp)

/-- `StreamPlayer.wait` (`stream_player.py` lines 146-158): `-1` without a
process; otherwise the process exit code (oracle `code`), with
`self._is_playing` cleared. The handle itself is not cleared. -/
def StreamPlayer.wait (sp : StreamPlayer) (code : Int) : Int × StreamPlayer :=
  match sp.process with
  | none => (-1, sp)
  | some _ => (code, { sp with _is_playing := false })

/-- `StreamPlayer.reset_restart_count` (`stream_player.py` lines 191-193). -/
def StreamPlayer.reset_restart_count (sp : StreamPlayer) : StreamPlayer :=
  { sp with restart_count := 0 }

/-- `StreamPlayer.increment_restart_count` (`stream_player.py` lines
195-198): increments and returns whether the maximum has been reached. -/
def StreamPlayer.increment_restart_count (sp : StreamPlayer) : Bool × StreamPlayer :=
  let sp2 := { sp with restart_count := sp.restart_count + 1 }
  (decide (sp2.restart_count ≥ sp2.max_restart_attempts), sp2)

/-- `AudioController.__init__` state from `audio_controller.py`. -/
structure AudioController where
  stream_player : StreamPlayer
  state : AudioState
  stream_url : String
  volume : Nat
deriving DecidableEq, Repr

/-- `AudioController.__init__(stream_url, volume)`. -/
def AudioController.make (url : String) (vol : Nat) : AudioController :=
  { stream_player := StreamPlayer.make url vol, state := AudioState.IDLE,
    stream_url := url, volume := vol }

/-- Tail of `AudioController.start_streaming` (`audio_controller.py` lines
59-69): set TRANSITIONING, call `StreamPlayer.start`, then settle on
STREAMING or IDLE according to the result. -/
def AudioController.launch_stream (c : AudioController) (o : StartOutcome) :
    Bool × AudioController × List Eff :=
  let c1 := { c with state := AudioState.TRANSITIONING }
  match c1.stream_player.start o with
  | (true, sp, effs) =>
    (true, { c1 with stream_player := sp, state := AudioState.STREAMING }, effs)
  | (false, sp, effs) =>
    (false, { c1 with stream_player := sp, state := AudioState.IDLE }, effs)

/-- `AudioController.start_streaming` (`audio_controller.py` lines 38-69). -/
def AudioController.start_streaming (c : AudioController) (o : StartOutcome) :
    Bool × AudioController × List Eff :=
  if c.state = AudioState.AIRPLAY then (false, c, [])
  else if c.state = AudioState.STREAMING then
    let (pl, sp1) := c.stream_player.is_playing
    if pl then (true, { c with stream_player := sp1 }, [])
    else
      AudioController.launch_stream
        { c with stream_player := sp1, state := AudioState.IDLE } o
  else AudioController.launch_stream c o

/-- `AudioController.stop_streaming` (`audio_controller.py` lines 71-80). -/
def AudioController.stop_streaming (c : AudioController) : AudioController × List Eff :=
  if c.state = AudioState.STREAMING then
    let (sp, effs) := c.stream_player.stop
    ({ c with stream_player := sp, state := AudioState.IDLE }, effs)
  else if c.state = AudioState.TRANSITIONING then
    ({ c with state := AudioState.IDLE }, [])
  else (c, [])

/-- `AudioController.switch_to_airplay` (`audio_controller.py` lines 82-101). -/
def AudioController.switch_to_airplay (c : AudioController) :
    Bool × AudioController × List Eff :=
  if c.state = AudioState.AIRPLAY then (true, c, [])
  else
    let (c1, effs) :=
      if c.state = AudioState.STREAMING then c.stop_streaming else (c, [])
    (true, { c1 with state := AudioState.AIRPLAY }, effs)

/-- `AudioController.switch_to_streaming` (`audio_controller.py` lines
103-133). -/
def AudioController.switch_to_streaming (c : AudioController) (o : StartOutcome) :
    Bool × AudioController × List Eff :=
  if c.state = AudioState.STREAMING then
    let (pl, sp1) := c.stream_player.is_playing
    if pl then (true, { c with stream_player := sp1 }, [])
    else
      AudioController.start_streaming
        { c with stream_player := sp1, state := AudioState.IDLE } o
  else
    let c1 :=
      if c.state = AudioState.AIRPLAY then { c with state := AudioState.IDLE } else c
    AudioController.start_streaming c1 o

/-- `AudioController.handle_stream_exit` (`audio_controller.py` lines
143-177). -/
def AudioController.handle_stream_exit (c : AudioController) (return_code : Int) :
    Bool × AudioController :=
  if c.state ≠ AudioState.STREAMING then (false, c)
  else if return_code = 0 then (false, c)
  else
    let (maxed, sp) := c.stream_player.increment_restart_count
    if maxed then (false, { c with stream_player := sp })
    else (true, { c with stream_player := sp })

/-- `AudioController.shutdown` (`audio_controller.py` lines 179-184). -/
def AudioController.shutdown (c : AudioController) : AudioController × List Eff :=
  let (c1, effs) := c.stop_streaming
  ({ c1 with state := AudioState.IDLE }, effs)

/-- One externally triggered operation on the controller, used to describe
all reachable controller states. `procDies` is the environment step where
the current playback process exits on its own. -/
inductive Step where
  | startStreaming (o : StartOutcome)
  | stopStreaming
  | switchToAirplay
  | switchToStreaming (o : StartOutcome)
  | handleStreamExit (code : Int)
  | shutdown
  | procDies
deriving DecidableEq, Repr

/-- Apply one `Step` to the controller, keeping only the updated state. -/
def AudioController.step (c : AudioController) : Step → AudioController
  | .startStreaming o => (c.start_streaming o).2.1
  | .stopStreaming => c.stop_streaming.1
  | .switchToAirplay => c.switch_to_airplay.2.1
  | .switchToStreaming o => (c.switch_to_streaming o).2.1
  | .handleStreamExit code => (c.handle_stream_exit code).2
  | .shutdown => c.shutdown.1
  | .procDies =>
    { c with stream_player :=
      { c.stream_player with
        process := c.stream_player.process.map (fun p => { p with alive := false }) } }

/-- Run a sequence of steps from a given controller state. -/
def AudioController.run (c : AudioController) : List Step → AudioController
  | [] => c
  | s :: rest => (c.step s).run rest

/-- Python's `str.strip()`: remove leading and trailing whitespace. -/
def pyStrip (s : String) : String :=
  ⟨((s.data.dropWhile Char.isWhitespace).reverse.dropWhile Char.isWhitespace).reverse⟩

/-- Python's `str.lower()` (ASCII case folding, which covers the tokens
this program cares about). -/
def pyLower (s : String) : String :=
  ⟨s.data.map Char.toLower⟩

/-- A single publication to the status sink, as performed by
`write_state_file` in `player.py`: whether it used the
write-temp-then-rename discipline, and the full content written. -/
structure Publication where
  atomic_replace : Bool
  content : String
deriving DecidableEq, Repr

/-- `write_state_file` (`player.py` lines 29-55) applied to an
`AudioState` argument: the enum `.value` string plus a newline is written
to a temp file which is then renamed over the status file. -/
def write_state_file (state : AudioState) : Publication :=
  { atomic_replace := true, content := state.value ++ "\n" }

/-- `write_state_file` (`player.py` lines 29-55) applied to a string
argument (the `write_state_file('idle')` call sites): `str(state).lower()`
plus a newline, written via temp file and rename. -/
def write_state_file_str (state : String) : Publication :=
  { atomic_replace := true, content := pyLower state ++ "\n" }

/-- `LEDController.read_state` (`led_controller.py` lines 80-102), content
path: strip and lower-case the file content, accept only the three valid
tokens. -/
def read_state (content : String) : Option String :=
  let state := pyLower (pyStrip content)
  if state = "streaming" ∨ state = "airplay" ∨ state = "idle" then some state
  else none

/-- AirPlay events as classified by `check_event`. -/
inductive AEvent where
  | connect
  | disconnect
deriving DecidableEq, Repr

/-- Event-channel reader state: whether `self.pipe_fd` is open
(`airplay_manager.py`). -/
structure Reader where
  fdOpen : Bool
deriving DecidableEq, Repr

/-- Pipe-descriptor actions taken by the reader, used to state when the
reader closes and reopens the channel. -/
inductive RAction where
  | closedPipe
  | openedPipe
deriving DecidableEq, Repr

/-- Oracle for one `check_event` poll: no data within the timeout, an
`OSError` from `select`, an exception from `os.read`, a
`UnicodeDecodeError`, or successfully decoded text. -/
inductive PollOutcome where
  | noData
  | selectError
  | readError
  | decodeError
  | decoded (s : String)
deriving DecidableEq, Repr

/-- Classification of decoded pipe data (`airplay_manager.py` lines
176-183): strip, test non-empty, lower-case, compare against the two
recognized events; anything else is logged and ignored. -/
def classify_event (decoded : String) : Option String :=
  let data := pyStrip decoded
  if data = "" then none
  else
    let event := pyLower data
    if event = "connect" then some "connect"
    else if event = "disconnect" then some "disconnect"
    else none

/-- Body of `check_event` after the descriptor is known open
(`airplay_manager.py` lines 170-198): the `select`/read/decode part,
including the outer `OSError` handler that closes the pipe and reopens it
when the pipe path still exists. -/
def check_event_body (r : Reader) (pipeExists : Bool) (oc : PollOutcome)
    (acts : List RAction) : Option String × Reader × List RAction :=
  match oc with
  | .noData => (none, r, acts)
  | .decoded s => (classify_event s, r, acts)
  | .decodeError => (none, r, acts)
  | .readError => (none, r, acts)
  | .selectError =>
    if pipeExists then (none, { fdOpen := true }, acts ++ [RAction.closedPipe, RAction.openedPipe])
    else (none, { fdOpen := false }, acts ++ [RAction.closedPipe])

/-- `AirPlayManager.check_event` (`airplay_manager.py` lines 155-198).
`pipeExists` is the oracle for whether the pipe path exists and can be
opened; `oc` describes what the poll encounters. -/
def check_event (r : Reader) (pipeExists : Bool) (oc : PollOutcome) :
    Option String × Reader × List RAction :=
  if r.fdOpen = false then
    if pipeExists = false then (none, r, [])
    else check_event_body { fdOpen := true } pipeExists oc [RAction.openedPipe]
  else check_event_body r pipeExists oc []

/-- State carried across main-loop iterations in `player.py`: the
controller, the `last_state` edge-trigger cache, and the ordered list of
status-file contents published so far. -/
structure MainState where
  ctl : AudioController
  last_state : Option AudioState
  writes : List String
deriving DecidableEq, Repr

/-- Append one `write_state_file` publication of the given state. -/
def MainState.publish (ms : MainState) (st : AudioState) : MainState :=
  { ms with writes := ms.writes ++ [(write_state_file st).content] }

/-- Whether a main-loop iteration falls through to the next iteration or
executes the `break` at `player.py` line 204. -/
inductive IterResult where
  | cont
  | brk
deriving DecidableEq, Repr

/-- One iteration of the supervisory loop (`player.py` lines 159-220):
event handling, the edge-triggered state write, and the per-mode branch
(streaming health check with restart-or-break, AirPlay wait, or the IDLE
retry). `ev` is the event returned by `check_event`, `waitCode` the exit
code delivered by `StreamPlayer.wait` when a process is present, `o1` the
launch outcome for a `switch_to_streaming` start and `o2` the launch
outcome for the restart/IDLE start. -/
def main_iter (ms : MainState) (ev : Option AEvent) (waitCode : Int)
    (o1 o2 : StartOutcome) : MainState × IterResult :=
  let ms1 :=
    match ev with
    | some AEvent.connect =>
      let r := ms.ctl.switch_to_airplay
      MainState.publish { ms with ctl := r.2.1 } r.2.1.state
    | some AEvent.disconnect =>
      let r := ms.ctl.switch_to_streaming o1
      MainState.publish { ms with ctl := r.2.1 } r.2.1.state
    | none => ms
  let current := ms1.ctl.state
  let ms2 :=
    if ms1.last_state ≠ some current then
      { ms1.publish current with last_state := some current }
    else ms1
  if current = AudioState.STREAMING then
    let (pl, sp1) := ms2.ctl.stream_player.is_playing
    let ms3 := { ms2 with ctl := { ms2.ctl with stream_player := sp1 } }
    if pl = false then
      let (code, sp2) := ms3.ctl.stream_player.wait waitCode
      let ms4 := { ms3 with ctl := { ms3.ctl with stream_player := sp2 } }
      let (should_restart, c1) := ms4.ctl.handle_stream_exit code
      let ms5 := { ms4 with ctl := c1 }
      if should_restart then
        let c2 := { ms5.ctl with state := AudioState.IDLE }
        let ms6 := MainState.publish { ms5 with ctl := c2 } c2.state
        let r := c2.start_streaming o2
        if r.1 then
          let c4 := { r.2.1 with stream_player := r.2.1.stream_player.reset_restart_count }
          (MainState.publish { ms6 with ctl := c4 } c4.state, IterResult.cont)
        else
          (MainState.publish { ms6 with ctl := r.2.1 } r.2.1.state, IterResult.cont)
      else (ms5, IterResult.brk)
    else (ms3, IterResult.cont)
  else if current = AudioState.AIRPLAY then (ms2, IterResult.cont)
  else
    let r := ms2.ctl.start_streaming o2
    (MainState.publish { ms2 with ctl := r.2.1 } r.2.1.state, IterResult.cont)

/-! Concrete states used by witnesses and counterexamples. -/

/-- A player whose process has died abnormally with the restart budget at 9. -/
def deadPlayer9 : StreamPlayer :=
  { stream_url := "u", volume := 100, process := some ⟨5, false⟩, restart_count := 9,
    max_restart_attempts := 10, restart_delay := 3, _is_playing := true }

/-- A controller in STREAMING mode whose player process has died, budget at 9. -/
def ctlDead9 : AudioController :=
  { stream_player := deadPlayer9, state := AudioState.STREAMING,
    stream_url := "u", volume := 100 }

/-- A controller in AIRPLAY mode with no process. -/
def ctlAirplay : AudioController :=
  { stream_player := StreamPlayer.make "u" 100, state := AudioState.AIRPLAY,
    stream_url := "u", volume := 100 }

/-- A controller in STREAMING mode with a live process and zero restarts. -/
def ctlStreaming : AudioController :=
  { stream_player :=
      { stream_url := "u", volume := 100, process := some ⟨3, true⟩, restart_count := 0,
        max_restart_attempts := 10, restart_delay := 3, _is_playing := true },
    state := AudioState.STREAMING, stream_url := "u", volume := 100 }

/-- Claim C9: `StreamPlayer.stop` is idempotent and infallible: after every call
the handle is cleared (`process = none`), `is_playing` reports `false`, and
a second consecutive call changes nothing and performs no further process
effect. -/
theorem spec_c9_stop_idempotent (sp : StreamPlayer) :
    sp.stop.1.process = none ∧
    sp.stop.1.is_playing.1 = false ∧
    sp.stop.1.stop = (sp.stop.1, []) := by
  cases h : sp.process <;>
    simp [StreamPlayer.stop, StreamPlayer.is_playing, h]

/-- Claim C10: `StreamPlayer.start` clears the handle (and `is_playing` reports
`false`) when it fails through the immediate-exit detection or the generic
exception branch, and returns with the whole object untouched in the
`FileNotFoundError` and `PermissionError` branches. -/
theorem spec_c10_start_failure_handle (sp : StreamPlayer) (pid : Nat) :
    ((sp.start (StartOutcome.immediateExit pid)).1 = false ∧
     (sp.start (StartOutcome.immediateExit pid)).2.1.process = none ∧
     (sp.start (StartOutcome.immediateExit pid)).2.1.is_playing.1 = false) ∧
    ((sp.start StartOutcome.otherError).1 = false ∧
     (sp.start StartOutcome.otherError).2.1.process = none ∧
     (sp.start StartOutcome.otherError).2.1.is_playing.1 = false) ∧
    sp.start StartOutcome.fileNotFound = (false, sp, []) ∧
    sp.start StartOutcome.permissionError = (false, sp, []) := by
  simp [StreamPlayer.start, StreamPlayer.is_playing]

/-- Claim C6: if the mode is AIRPLAY, `start_streaming` refuses: it returns
`False`, launches nothing, and leaves the controller untouched. -/
theorem spec_c6_airplay_refuses_streaming (c : AudioController) (o : StartOutcome)
    (h : c.state = AudioState.AIRPLAY) :
    c.start_streaming o = (false, c, []) := by
  simp [AudioController.start_streaming, h]

/-- Claim C6 witness at a concrete AIRPLAY controller. -/
theorem spec_c6_witness :
    ctlAirplay.state = AudioState.AIRPLAY ∧
    ctlAirplay.start_streaming (StartOutcome.success ⟨8, true⟩) = (false, ctlAirplay, []) :=
  ⟨by decide, spec_c6_airplay_refuses_streaming ctlAirplay _ (by decide)⟩

/-- Claim C7: `handle_stream_exit` returns `False` and leaves the controller (and
in particular the restart counter) unchanged whenever the mode is not
STREAMING, and likewise for exit code 0 regardless of the counter. -/
theorem spec_c7_no_restart_cases (c : AudioController) (code : Int)
    (h : c.state ≠ AudioState.STREAMING ∨ code = 0) :
    c.handle_stream_exit code = (false, c) := by
  rcases h with h | h
  · simp [AudioController.handle_stream_exit, h]
  · subst h
    unfold AudioController.handle_stream_exit
    split
    · rfl
    · simp

/-- Claim C7 witness: an AIRPLAY-mode exit with code 5, and a STREAMING-mode exit
with code 0 at restart counter 9, both return `(False, unchanged)`. -/
theorem spec_c7_witness :
    ctlAirplay.handle_stream_exit 5 = (false, ctlAirplay) ∧
    ctlDead9.handle_stream_exit 0 = (false, ctlDead9) :=
  ⟨spec_c7_no_restart_cases ctlAirplay 5 (Or.inl (by decide)),
   spec_c7_no_restart_cases ctlDead9 0 (Or.inr rfl)⟩

/-- Claim C5: `switch_to_airplay` always returns `True` and leaves the mode
AIRPLAY, and a second consecutive call returns the very same state with no
process spawned or terminated. -/
theorem spec_c5_switch_airplay_idempotent (c : AudioController) :
    c.switch_to_airplay.1 = true ∧
    c.switch_to_airplay.2.1.state = AudioState.AIRPLAY ∧
    c.switch_to_airplay.2.1.switch_to_airplay = (true, c.switch_to_airplay.2.1, []) := by
  by_cases h : c.state = AudioState.AIRPLAY
  · simp [AudioController.switch_to_airplay, h]
  · by_cases h2 : c.state = AudioState.STREAMING
    · cases hp : c.stream_player.process <;>
        simp [AudioController.switch_to_airplay, AudioController.stop_streaming,
          StreamPlayer.stop, h, h2, hp]
    · simp [AudioController.switch_to_airplay, h, h2]

/-- Claim C2: while STREAMING, every abnormal exit (code not 0) increments the
restart counter by exactly one, and `handle_stream_exit` requests a restart
exactly when the incremented counter is still strictly below the maximum of
10; `reset_restart_count` zeroes the counter. -/
theorem spec_c2_restart_budget (c : AudioController) (code : Int)
    (h1 : c.state = AudioState.STREAMING) (h2 : code ≠ 0)
    (h3 : c.stream_player.max_restart_attempts = 10) :
    (c.handle_stream_exit code).2.stream_player.restart_count
      = c.stream_player.restart_count + 1 ∧
    ((c.handle_stream_exit code).1 = true ↔ c.stream_player.restart_count + 1 < 10) ∧
    c.stream_player.reset_restart_count.restart_count = 0 := by
  unfold AudioController.handle_stream_exit
  simp [h1, h2, StreamPlayer.increment_restart_count, StreamPlayer.reset_restart_count, h3]
  split <;> simp <;> omega

/-- Claim C2 witness: the 10th consecutive abnormal exit (counter 9 before the
call) yields no restart, while a counter of 0 yields a restart. -/
theorem spec_c2_witness :
    ((ctlDead9.handle_stream_exit 1).2.stream_player.restart_count
      = ctlDead9.stream_player.restart_count + 1 ∧
     ((ctlDead9.handle_stream_exit 1).1 = true ↔
       ctlDead9.stream_player.restart_count + 1 < 10) ∧
     ctlDead9.stream_player.reset_restart_count.restart_count = 0) ∧
    (ctlStreaming.handle_stream_exit 1).1 = true ∧
    (ctlDead9.handle_stream_exit 1).1 = false :=
  ⟨spec_c2_restart_budget ctlDead9 1 (by decide) (by decide) (by decide),
   by decide, by decide⟩

/-! State-shape lemmas: no controller operation ever leaves the transient
TRANSITIONING mode behind at an operation boundary. -/

/-- `launch_stream` always ends in STREAMING or IDLE. -/
theorem launch_stream_state (c : AudioController) (o : StartOutcome) :
    (c.launch_stream o).2.1.state = AudioState.STREAMING ∨
    (c.launch_stream o).2.1.state = AudioState.IDLE := by
  cases o <;> simp [AudioController.launch_stream, StreamPlayer.start]

/-- `start_streaming` ends in STREAMING, IDLE, or the unchanged entry mode. -/
theorem start_streaming_state (c : AudioController) (o : StartOutcome) :
    (c.start_streaming o).2.1.state = AudioState.STREAMING ∨
    (c.start_streaming o).2.1.state = AudioState.IDLE ∨
    (c.start_streaming o).2.1.state = c.state := by
  unfold AudioController.start_streaming
  by_cases h1 : c.state = AudioState.AIRPLAY
  · simp [h1]
  · by_cases h2 : c.state = AudioState.STREAMING
    · simp only [h1, h2, if_true, if_false]
      rcases hip : c.stream_player.is_playing with ⟨pl, sp1⟩
      cases pl
      · simp only [Bool.false_eq_true, if_false]
        rcases launch_stream_state
            { c with stream_player := sp1, state := AudioState.IDLE } o with h | h
        · exact Or.inl h
        · exact Or.inr (Or.inl h)
      · simp [h2]
    · simp only [h1, h2, if_false]
      rcases launch_stream_state c o with h | h
      · exact Or.inl h
      · exact Or.inr (Or.inl h)

/-- `stop_streaming` ends in IDLE or the unchanged entry mode. -/
theorem stop_streaming_state (c : AudioController) :
    c.stop_streaming.1.state = AudioState.IDLE ∨
    c.stop_streaming.1.state = c.state := by
  unfold AudioController.stop_streaming
  split
  · cases hp : c.stream_player.process <;> simp [StreamPlayer.stop, hp]
  · split <;> simp

/-- `switch_to_airplay` always ends in AIRPLAY. -/
theorem switch_to_airplay_state (c : AudioController) :
    c.switch_to_airplay.2.1.state = AudioState.AIRPLAY := by
  unfold AudioController.switch_to_airplay
  split
  · next h => exact h
  · rcases hs : (if c.state = AudioState.STREAMING then c.stop_streaming else (c, []))
      with ⟨c1, effs⟩
    simp [hs]

/-- `switch_to_streaming` ends in STREAMING, IDLE or the unchanged mode. -/
theorem switch_to_streaming_state (c : AudioController) (o : StartOutcome) :
    (c.switch_to_streaming o).2.1.state = AudioState.STREAMING ∨
    (c.switch_to_streaming o).2.1.state = AudioState.IDLE ∨
    (c.switch_to_streaming o).2.1.state = c.state := by
  unfold AudioController.switch_to_streaming
  by_cases h2 : c.state = AudioState.STREAMING
  · simp only [h2, if_true]
    rcases hip : c.stream_player.is_playing with ⟨pl, sp1⟩
    cases pl
    · simp only [Bool.false_eq_true, if_false]
      rcases start_streaming_state
          { c with stream_player := sp1, state := AudioState.IDLE } o with h | h | h
      · exact Or.inl h
      · exact Or.inr (Or.inl h)
      · exact Or.inr (Or.inl h)
    · simp [h2]
  · simp only [h2, if_false]
    by_cases h1 : c.state = AudioState.AIRPLAY
    · simp only [h1, if_true]
      rcases start_streaming_state { c with state := AudioState.IDLE } o with h | h | h
      · exact Or.inl h
      · exact Or.inr (Or.inl h)
      · exact Or.inr (Or.inl h)
    · simp only [h1, if_false]
      rcases start_streaming_state c o with h | h | h
      · exact Or.inl h
      · exact Or.inr (Or.inl h)
      · exact Or.inr (Or.inr h)

/-- `handle_stream_exit` never changes the mode. -/
theorem handle_stream_exit_state (c : AudioController) (code : Int) :
    (c.handle_stream_exit code).2.state = c.state := by
  unfold AudioController.handle_stream_exit
  split
  · rfl
  · split
    · rfl
    · simp [StreamPlayer.increment_restart_count]
      split <;> rfl

/-- Every `Step` ends in STREAMING, IDLE, AIRPLAY, or the unchanged mode. -/
theorem step_state_cases (c : AudioController) (s : Step) :
    (c.step s).state = AudioState.STREAMING ∨
    (c.step s).state = AudioState.IDLE ∨
    (c.step s).state = AudioState.AIRPLAY ∨
    (c.step s).state = c.state := by
  cases s with
  | startStreaming o =>
    rcases start_streaming_state c o with h | h | h
    · exact Or.inl h
    · exact Or.inr (Or.inl h)
    · exact Or.inr (Or.inr (Or.inr h))
  | stopStreaming =>
    rcases stop_streaming_state c with h | h
    · exact Or.inr (Or.inl h)
    · exact Or.inr (Or.inr (Or.inr h))
  | switchToAirplay => exact Or.inr (Or.inr (Or.inl (switch_to_airplay_state c)))
  | switchToStreaming o =>
    rcases switch_to_streaming_state c o with h | h | h
    · exact Or.inl h
    · exact Or.inr (Or.inl h)
    · exact Or.inr (Or.inr (Or.inr h))
  | handleStreamExit code =>
    exact Or.inr (Or.inr (Or.inr (handle_stream_exit_state c code)))
  | shutdown =>
    unfold AudioController.step AudioController.shutdown
    rcases hs : c.stop_streaming with ⟨c1, effs⟩
    exact Or.inr (Or.inl rfl)
  | procDies => exact Or.inr (Or.inr (Or.inr rfl))

/-- A step never introduces the transient TRANSITIONING mode. -/
theorem step_not_transitioning (c : AudioController) (s : Step)
    (h : c.state ≠ AudioState.TRANSITIONING) :
    (c.step s).state ≠ AudioState.TRANSITIONING := by
  rcases step_state_cases c s with h1 | h1 | h1 | h1 <;> rw [h1] <;>
    first
    | decide
    | exact h

/-- Along any operation sequence the mode is never observed as
TRANSITIONING at an operation boundary. -/
theorem run_not_transitioning (c : AudioController) (steps : List Step)
    (h : c.state ≠ AudioState.TRANSITIONING) :
    (c.run steps).state ≠ AudioState.TRANSITIONING := by
  induction steps generalizing c with
  | nil => exact h
  | cons s rest ih => exact ih _ (step_not_transitioning c s h)

/-- Claim C4 counterexample: the content actually written for the STREAMING mode
is the token followed by a newline, which is not literally one of
`streaming` / `airplay` / `idle`; the claim as stated is therefore false of
`write_state_file`. -/
theorem spec_c4_counterexample :
    (write_state_file AudioState.STREAMING).content = "streaming\n" ∧
    ¬((write_state_file AudioState.STREAMING).content = "streaming" ∨
      (write_state_file AudioState.STREAMING).content = "airplay" ∨
      (write_state_file AudioState.STREAMING).content = "idle") := by
  decide

/-- Claim C4 amended: every publication uses the write-temp-then-rename
discipline; its content is one of the tokens `streaming`, `airplay`,
`idle` (ReceiverActive mapping to `airplay`) followed by a single newline;
the status-file reader, which strips whitespace, therefore always observes
exactly the bare token. TRANSITIONING is never published because it is
never the mode at an operation boundary. -/
theorem spec_c4_amended (st : AudioState) (h : st ≠ AudioState.TRANSITIONING) :
    (write_state_file st).atomic_replace = true ∧
    (write_state_file st).content = st.value ++ "\n" ∧
    (st.value = "streaming" ∨ st.value = "airplay" ∨ st.value = "idle") ∧
    read_state (write_state_file st).content = some st.value ∧
    read_state (write_state_file_str "idle").content = some "idle" ∧
    (∀ url vol steps,
      ((AudioController.make url vol).run steps).state ≠ AudioState.TRANSITIONING) := by
  refine ⟨rfl, rfl, ?_, ?_, by decide, ?_⟩
  · cases st
    · exact Or.inl rfl
    · exact Or.inr (Or.inl rfl)
    · exact Or.inr (Or.inr rfl)
    · exact absurd rfl h
  · cases st
    · decide
    · decide
    · decide
    · exact absurd rfl h
  · intro url vol steps
    exact run_not_transitioning _ _ (by simp [AudioController.make])

/-- Claim C4 witness at the STREAMING mode. -/
theorem spec_c4_witness :
    (write_state_file AudioState.STREAMING).atomic_replace = true ∧
    (write_state_file AudioState.STREAMING).content
      = AudioState.STREAMING.value ++ "\n" ∧
    (AudioState.STREAMING.value = "streaming" ∨
     AudioState.STREAMING.value = "airplay" ∨
     AudioState.STREAMING.value = "idle") ∧
    read_state (write_state_file AudioState.STREAMING).content
      = some AudioState.STREAMING.value ∧
    read_state (write_state_file_str "idle").content = some "idle" ∧
    (∀ url vol steps,
      ((AudioController.make url vol).run steps).state ≠ AudioState.TRANSITIONING) :=
  spec_c4_amended AudioState.STREAMING (by decide)

/-- Classification always yields `None`, `connect`, or `disconnect`. -/
theorem classify_event_cases (s : String) :
    classify_event s = none ∨ classify_event s = some "connect" ∨
    classify_event s = some "disconnect" := by
  simp only [classify_event]
  split
  · exact Or.inl rfl
  · split
    · exact Or.inr (Or.inl rfl)
    · split
      · exact Or.inr (Or.inr rfl)
      · exact Or.inl rfl

/-- Claim C8 counterexample: on an I/O error raised by the read itself (the inner
generic handler at `airplay_manager.py` lines 186-187), `check_event`
returns `None` but performs no close and no reopen of the pipe; the claim
that I/O errors make the reader close and reopen is false there. -/
theorem spec_c8_counterexample :
    check_event { fdOpen := true } true PollOutcome.readError
      = (none, { fdOpen := true }, []) ∧
    RAction.closedPipe ∉
      (check_event { fdOpen := true } true PollOutcome.readError).2.2 ∧
    RAction.openedPipe ∉
      (check_event { fdOpen := true } true PollOutcome.readError).2.2 := by
  decide

/-- Claim C8 amended: `check_event` returns only `connect`, `disconnect` or
`None`; decoded data is whitespace-stripped and lower-cased before the
case-insensitive classification; empty, unrecognized and undecodable
messages yield `None`; no I/O error propagates, but only an error at the
`select` readiness wait triggers close-and-reopen (reopen succeeding iff
the pipe path still exists), while an error from the read itself is logged
and ignored with the descriptor left open. -/
theorem spec_c8_amended :
    (∀ r pe oc, (check_event r pe oc).1 = none ∨
      (check_event r pe oc).1 = some "connect" ∨
      (check_event r pe oc).1 = some "disconnect") ∧
    (∀ s, (check_event { fdOpen := true } true (PollOutcome.decoded s)).1 =
      (if pyStrip s = "" then none
       else if pyLower (pyStrip s) = "connect" then some "connect"
       else if pyLower (pyStrip s) = "disconnect" then some "disconnect"
       else none)) ∧
    (check_event { fdOpen := true } true (PollOutcome.decoded "  CoNNecT \n")).1
      = some "connect" ∧
    (check_event { fdOpen := true } true (PollOutcome.decoded "DISCONNECT")).1
      = some "disconnect" ∧
    (check_event { fdOpen := true } true (PollOutcome.decoded "foo")).1 = none ∧
    (check_event { fdOpen := true } true (PollOutcome.decoded "")).1 = none ∧
    (check_event { fdOpen := true } true PollOutcome.decodeError).1 = none ∧
    check_event { fdOpen := true } true PollOutcome.readError
      = (none, { fdOpen := true }, []) ∧
    check_event { fdOpen := true } true PollOutcome.selectError
      = (none, { fdOpen := true }, [RAction.closedPipe, RAction.openedPipe]) ∧
    check_event { fdOpen := true } false PollOutcome.selectError
      = (none, { fdOpen := false }, [RAction.closedPipe]) := by
  refine ⟨?_, ?_, by decide, by decide, by decide, by decide, by decide, by decide,
    by decide, by decide⟩
  · intro r pe oc
    rcases r with ⟨fd⟩
    cases fd <;> cases pe <;> cases oc <;>
      simp [check_event, check_event_body] <;>
      exact classify_event_cases _
  · intro s
    simp [check_event, check_event_body, classify_event]

/-- Main-loop state around `ctlDead9`: steady streaming, nothing published
yet this run. -/
def msDead9 : MainState :=
  { ctl := ctlDead9, last_state := some AudioState.STREAMING, writes := [] }

/-- A player that exited with the restart counter still at 0. -/
def deadPlayer0 : StreamPlayer :=
  { stream_url := "u", volume := 100, process := some ⟨6, false⟩, restart_count := 0,
    max_restart_attempts := 10, restart_delay := 3, _is_playing := true }

/-- Controller and loop state for a clean (exit code 0) player stop. -/
def ctlDead0 : AudioController :=
  { stream_player := deadPlayer0, state := AudioState.STREAMING,
    stream_url := "u", volume := 100 }

/-- Main-loop state around `ctlDead0`. -/
def msDead0 : MainState :=
  { ctl := ctlDead0, last_state := some AudioState.STREAMING, writes := [] }

/-- Claim C1 counterexample: at the 10th consecutive abnormal exit (counter 9,
exit code 1) the loop iteration executes the `break` at `player.py` line
204, but the mode is still STREAMING — not Idle — and nothing (in
particular no `idle` token) is published before leaving the loop. -/
theorem spec_c1_counterexample :
    (main_iter msDead9 none 1 StartOutcome.mpvMissing StartOutcome.mpvMissing).2
      = IterResult.brk ∧
    (main_iter msDead9 none 1 StartOutcome.mpvMissing StartOutcome.mpvMissing).1.ctl.state
      = AudioState.STREAMING ∧
    (main_iter msDead9 none 1 StartOutcome.mpvMissing StartOutcome.mpvMissing).1.ctl.state
      ≠ AudioState.IDLE ∧
    (main_iter msDead9 none 1 StartOutcome.mpvMissing StartOutcome.mpvMissing).1.writes
      = [] := by
  decide

/-- Claim C1 amended: when a player exit is not restart-eligible (exit code 0, or
the incremented restart counter reaching the maximum), the supervisory loop
iteration breaks immediately: the dead process handle is not stopped or
cleared, no status token (in particular not `idle`) is published, and the
mode remains STREAMING rather than ending as Idle. Only the external
shutdown-signal path publishes `idle` and stops the controller. -/
theorem spec_c1_amended (ms : MainState) (waitCode : Int) (o1 o2 : StartOutcome)
    (p : Proc)
    (h1 : ms.ctl.state = AudioState.STREAMING)
    (h2 : ms.last_state = some AudioState.STREAMING)
    (h3 : ms.ctl.stream_player.process = some p)
    (h4 : p.alive = false)
    (h5 : waitCode = 0 ∨
      ms.ctl.stream_player.restart_count + 1
        ≥ ms.ctl.stream_player.max_restart_attempts) :
    (main_iter ms none waitCode o1 o2).2 = IterResult.brk ∧
    (main_iter ms none waitCode o1 o2).1.ctl.state = AudioState.STREAMING ∧
    (main_iter ms none waitCode o1 o2).1.writes = ms.writes ∧
    (main_iter ms none waitCode o1 o2).1.ctl.stream_player.process = some p := by
  rcases h5 with h5 | h5
  · subst h5
    simp [main_iter, h1, h2, h3, h4, StreamPlayer.is_playing, StreamPlayer.wait,
      AudioController.handle_stream_exit]
  · by_cases wc : waitCode = 0
    · subst wc
      simp [main_iter, h1, h2, h3, h4, StreamPlayer.is_playing, StreamPlayer.wait,
        AudioController.handle_stream_exit]
    · simp [main_iter, h1, h2, h3, h4, StreamPlayer.is_playing, StreamPlayer.wait,
        AudioController.handle_stream_exit, StreamPlayer.increment_restart_count,
        wc, h5]

/-- Claim C1 witness for the amended theorem: the clean-stop case (exit code 0)
at a concrete loop state. -/
theorem spec_c1_witness :
    (main_iter msDead0 none 0 StartOutcome.mpvMissing StartOutcome.mpvMissing).2
      = IterResult.brk ∧
    (main_iter msDead0 none 0 StartOutcome.mpvMissing StartOutcome.mpvMissing).1.ctl.state
      = AudioState.STREAMING ∧
    (main_iter msDead0 none 0 StartOutcome.mpvMissing StartOutcome.mpvMissing).1.writes
      = msDead0.writes ∧
    (main_iter msDead0 none 0 StartOutcome.mpvMissing
        StartOutcome.mpvMissing).1.ctl.stream_player.process = some ⟨6, false⟩ :=
  spec_c1_amended msDead0 0 StartOutcome.mpvMissing StartOutcome.mpvMissing
    ⟨6, false⟩ (by decide) (by decide) (by decide) (by decide) (Or.inl rfl)

/-- Inductive invariant for mutual exclusion: any live playback process
implies the controller is in STREAMING mode with its playing flag set. -/
def LiveInv (c : AudioController) : Prop :=
  ∀ p, c.stream_player.process = some p → p.alive = true →
    c.state = AudioState.STREAMING ∧ c.stream_player._is_playing = true

/-- If the mode is not STREAMING, `LiveInv` gives that no live process
exists at all. -/
theorem liveInv_no_live_of_not_streaming (c : AudioController) (h : LiveInv c)
    (hs : c.state ≠ AudioState.STREAMING) :
    ∀ q, c.stream_player.process = some q → q.alive = true → False :=
  fun q hq ha => hs (h q hq ha).1

/-- When `is_playing` reports `false` and live processes have the playing
flag set, the updated player holds no live process. -/
theorem is_playing_false_no_live (sp : StreamPlayer)
    (hpl : sp.is_playing.1 = false)
    (hinv : ∀ p, sp.process = some p → p.alive = true → sp._is_playing = true) :
    ∀ q, sp.is_playing.2.process = some q → q.alive = true → False := by
  intro q hq ha
  cases hp : sp.process with
  | none => simp [StreamPlayer.is_playing, hp] at hq
  | some p =>
    by_cases hal : p.alive = false
    · simp [StreamPlayer.is_playing, hp, hal] at hq
      rw [← hq] at ha
      rw [hal] at ha
      exact Bool.false_ne_true ha
    · have hat : p.alive = true := by
        cases h : p.alive
        · exact absurd h hal
        · rfl
      have hflag := hinv p hp hat
      simp [StreamPlayer.is_playing, hp, hat, hflag] at hpl
  
/-- When `is_playing` reports `true`, the player object is unchanged and
its playing flag was already set. -/
theorem is_playing_true_spec (sp : StreamPlayer) (hpl : sp.is_playing.1 = true) :
    sp.is_playing.2 = sp ∧ sp._is_playing = true := by
  cases hp : sp.process with
  | none => simp [StreamPlayer.is_playing, hp] at hpl
  | some p =>
    by_cases hal : p.alive = false
    · simp [StreamPlayer.is_playing, hp, hal] at hpl
    · simp [StreamPlayer.is_playing, hp, hal] at hpl ⊢
      exact hpl

/-- `launch_stream` preserves the invariant provided no live process exists
when it is entered. -/
theorem liveInv_launch_stream (c : AudioController) (o : StartOutcome)
    (h : ∀ q, c.stream_player.process = some q → q.alive = true → False) :
    LiveInv (c.launch_stream o).2.1 := by
  cases o with
  | mpvMissing => intro p hp ha; exact (h p hp ha).elim
  | success pr => intro p hp ha; exact ⟨rfl, rfl⟩
  | immediateExit pid =>
    intro p hp ha
    simp [AudioController.launch_stream, StreamPlayer.start] at hp
  | fileNotFound => intro p hp ha; exact (h p hp ha).elim
  | permissionError => intro p hp ha; exact (h p hp ha).elim
  | otherError =>
    intro p hp ha
    simp [AudioController.launch_stream, StreamPlayer.start] at hp

/-- `start_streaming` preserves the invariant. -/
theorem liveInv_start_streaming (c : AudioController) (o : StartOutcome)
    (h : LiveInv c) : LiveInv (c.start_streaming o).2.1 := by
  unfold AudioController.start_streaming
  by_cases h1 : c.state = AudioState.AIRPLAY
  · rw [if_pos h1]
    exact h
  · rw [if_neg h1]
    by_cases h2 : c.state = AudioState.STREAMING
    · rw [if_pos h2]
      rcases hip : c.stream_player.is_playing with ⟨pl, sp1⟩
      dsimp only
      cases pl
      · rw [if_neg (show ¬(false = true) by decide)]
        apply liveInv_launch_stream
        intro q hq ha
        have hnl := is_playing_false_no_live c.stream_player
          (by rw [hip]) (fun p hp hal => (h p hp hal).2)
        exact hnl q (by rw [hip]; exact hq) ha
      · rw [if_pos rfl]
        rcases is_playing_true_spec c.stream_player (by rw [hip]) with ⟨he, hflag⟩
        have hsp1 : sp1 = c.stream_player := by
          have h2nd := congrArg Prod.snd hip
          dsimp at h2nd
          rw [← h2nd, he]
        intro q hq ha
        constructor
        · exact h2
        · dsimp only
          rw [hsp1]
          exact hflag
    · rw [if_neg h2]
      exact liveInv_launch_stream c o (liveInv_no_live_of_not_streaming c h h2)

/-- After `stop_streaming` no live process remains. -/
theorem stop_streaming_no_live (c : AudioController) (h : LiveInv c) :
    ∀ q, c.stop_streaming.1.stream_player.process = some q → q.alive = true → False := by
  unfold AudioController.stop_streaming
  by_cases h2 : c.state = AudioState.STREAMING
  · rw [if_pos h2]
    cases hp : c.stream_player.process with
    | none =>
      intro q hq ha
      simp [StreamPlayer.stop, hp] at hq
    | some p =>
      intro q hq ha
      simp [StreamPlayer.stop, hp] at hq
  · rw [if_neg h2]
    by_cases h3 : c.state = AudioState.TRANSITIONING
    · rw [if_pos h3]
      intro q hq ha
      exact h2 (h q hq ha).1
    · rw [if_neg h3]
      intro q hq ha
      exact h2 (h q hq ha).1

/-- `stop_streaming` preserves the invariant. -/
theorem liveInv_stop_streaming (c : AudioController) (h : LiveInv c) :
    LiveInv c.stop_streaming.1 :=
  fun q hq ha => (stop_streaming_no_live c h q hq ha).elim

/-- `switch_to_airplay` preserves the invariant. -/
theorem liveInv_switch_to_airplay (c : AudioController) (h : LiveInv c) :
    LiveInv c.switch_to_airplay.2.1 := by
  unfold AudioController.switch_to_airplay
  by_cases h1 : c.state = AudioState.AIRPLAY
  · rw [if_pos h1]
    exact h
  · rw [if_neg h1]
    by_cases h2 : c.state = AudioState.STREAMING
    · rw [if_pos h2]
      rcases hs : c.stop_streaming with ⟨c1, effs⟩
      dsimp only
      intro q hq ha
      have := stop_streaming_no_live c h q
      rw [hs] at this
      exact (this hq ha).elim
    · rw [if_neg h2]
      dsimp only
      intro q hq ha
      exact (h2 (h q hq ha).1).elim

/-- `switch_to_streaming` preserves the invariant. -/
theorem liveInv_switch_to_streaming (c : AudioController) (o : StartOutcome)
    (h : LiveInv c) : LiveInv (c.switch_to_streaming o).2.1 := by
  unfold AudioController.switch_to_streaming
  by_cases h2 : c.state = AudioState.STREAMING
  · rw [if_pos h2]
    rcases hip : c.stream_player.is_playing with ⟨pl, sp1⟩
    dsimp only
    cases pl
    · rw [if_neg (show ¬(false = true) by decide)]
      apply liveInv_start_streaming
      intro q hq ha
      have hnl := is_playing_false_no_live c.stream_player
        (by rw [hip]) (fun p hp hal => (h p hp hal).2)
      exact (hnl q (by rw [hip]; exact hq) ha).elim
    · rw [if_pos rfl]
      rcases is_playing_true_spec c.stream_player (by rw [hip]) with ⟨he, hflag⟩
      have hsp1 : sp1 = c.stream_player := by
        have h2nd := congrArg Prod.snd hip
        dsimp at h2nd
        rw [← h2nd, he]
      intro q hq ha
      constructor
      · exact h2
      · dsimp only
        rw [hsp1]
        exact hflag
  · rw [if_neg h2]
    by_cases h1 : c.state = AudioState.AIRPLAY
    · rw [if_pos h1]
      apply liveInv_start_streaming
      intro q hq ha
      exact (h2 (h q hq ha).1).elim
    · rw [if_neg h1]
      exact liveInv_start_streaming c o h

/-- `handle_stream_exit` preserves the invariant: it never touches the
mode, the process handle, or the playing flag. -/
theorem liveInv_handle_stream_exit (c : AudioController) (code : Int)
    (h : LiveInv c) : LiveInv (c.handle_stream_exit code).2 := by
  unfold AudioController.handle_stream_exit
  split
  · exact h
  · split
    · exact h
    · dsimp only [StreamPlayer.increment_restart_count]
      split
      · intro q hq ha
        exact h q hq ha
      · intro q hq ha
        exact h q hq ha

/-- `shutdown` preserves the invariant. -/
theorem liveInv_shutdown (c : AudioController) (h : LiveInv c) :
    LiveInv c.shutdown.1 := by
  unfold AudioController.shutdown
  rcases hs : c.stop_streaming with ⟨c1, effs⟩
  dsimp only
  intro q hq ha
  have := stop_streaming_no_live c h q
  rw [hs] at this
  exact (this hq ha).elim

/-- The environment step where the process dies preserves the invariant. -/
theorem liveInv_procDies (c : AudioController) :
    LiveInv (c.step Step.procDies) := by
  intro q hq ha
  cases hp : c.stream_player.process with
  | none =>
    simp [AudioController.step, hp] at hq
  | some p =>
    simp [AudioController.step, hp] at hq
    rw [← hq] at ha
    simp at ha

/-- Every `Step` preserves the invariant. -/
theorem liveInv_step (c : AudioController) (s : Step) (h : LiveInv c) :
    LiveInv (c.step s) := by
  cases s with
  | startStreaming o => exact liveInv_start_streaming c o h
  | stopStreaming => exact liveInv_stop_streaming c h
  | switchToAirplay => exact liveInv_switch_to_airplay c h
  | switchToStreaming o => exact liveInv_switch_to_streaming c o h
  | handleStreamExit code => exact liveInv_handle_stream_exit c code h
  | shutdown => exact liveInv_shutdown c h
  | procDies => exact liveInv_procDies c

/-- The invariant holds along every operation sequence. -/
theorem liveInv_run (c : AudioController) (steps : List Step) (h : LiveInv c) :
    LiveInv (c.run steps) := by
  induction steps generalizing c with
  | nil => exact h
  | cons s rest ih => exact ih _ (liveInv_step c s h)

/-- The freshly constructed controller satisfies the invariant. -/
theorem liveInv_make (url : String) (vol : Nat) :
    LiveInv (AudioController.make url vol) := by
  intro q hq ha
  simp [AudioController.make, StreamPlayer.make] at hq

/-- Claim C3: in every state reachable by any sequence of controller operations
(interleaved with spontaneous process death), AIRPLAY mode implies that no
playback process is alive: any retained handle refers to a dead process. -/
theorem spec_c3_airplay_no_live_process (url : String) (vol : Nat)
    (steps : List Step)
    (h : ((AudioController.make url vol).run steps).state = AudioState.AIRPLAY) :
    ∀ p, ((AudioController.make url vol).run steps).stream_player.process = some p →
      p.alive = false := by
  intro p hp
  cases ha : p.alive with
  | false => rfl
  | true =>
    exfalso
    have hinv := liveInv_run (AudioController.make url vol) steps (liveInv_make url vol)
    have hstate := (hinv p hp ha).1
    rw [h] at hstate
    exact AudioState.noConfusion hstate

/-- Concrete trace reaching AIRPLAY while retaining a dead process handle:
stream starts, the process dies, a restart attempt fails inside `Popen`
(leaving the stale handle), then AirPlay connects. -/
def stepsAirplayDead : List Step :=
  [Step.startStreaming (StartOutcome.success ⟨1, true⟩), Step.procDies,
   Step.startStreaming StartOutcome.fileNotFound, Step.switchToAirplay]

/-- Claim C3 witness: the trace `stepsAirplayDead` ends in AIRPLAY with a
retained handle, and the theorem shows that handle's process is dead. -/
theorem spec_c3_witness :
    ((AudioController.make "u" 100).run stepsAirplayDead).state
      = AudioState.AIRPLAY ∧
    ((AudioController.make "u" 100).run stepsAirplayDead).stream_player.process
      = some ⟨1, false⟩ ∧
    (⟨1, false⟩ : Proc).alive = false :=
  ⟨by decide, by decide,
   spec_c3_airplay_no_live_process "u" 100 stepsAirplayDead (by decide)
     ⟨1, false⟩ (by decide)⟩
